import Mathlib

/-!
Verification of the audio capture pipeline of `audio_recorder.py`
(class `AudioRecorder`): device catalog, recording lifecycle,
buffering and WAV persistence.

Shallow embedding conventions:
* One audio frame is a `List Int` (one sample per channel); a chunk
  delivered by the host stream is a `List` of frames.
* The recorder object's mutable attributes become the fields of
  `RecorderState`; each Python method becomes a function from the
  state (plus its arguments) to the new state and its return value.
* The background capture thread (`_recording_worker` together with
  `_audio_callback`) is modelled by `run_worker`, which consumes the
  sequence of events the host stream produces (delivered chunks, or a
  stream error / failed stream open) and updates the shared state.
* Interactions with the outside world are passed in as explicit
  arguments: `get_audio_devices` receives the outcome of
  `sounddevice.query_devices()` (`none` models the host query raising),
  and `stop_recording` receives a `writeOk : Bool` telling whether the
  `scipy.io.wavfile.write` call succeeds.  An exception escaping a
  method is modelled as an explicit `raised` outcome (for
  `stop_recording`) or a `none` result (for `get_audio_devices`);
  a normal Python `return None` is `returned none`.
* Python floats are modelled as exact rationals (`ℚ`).
-/

/-- One audio frame: one sample per channel. -/
abbrev Frame : Type := List Int

/-- One chunk of frames as delivered by the host stream callback
(`indata.copy()` in `_audio_callback`). -/
abbrev Chunk : Type := List Frame

/-- `config.py` constant `SAMPLE_RATE = 44100`. -/
def SAMPLE_RATE : Nat := 44100

/-- `config.py` constant `CHANNELS = 2`. -/
def CHANNELS : Nat := 2

/-- The mutable attributes of `AudioRecorder` set in `__init__`
(`audio_recorder.py` lines 30-43).  The `recording_thread` handle is
not carried in the state: the thread's behaviour is modelled by
`run_worker` and thread creation by the `spawned` flag of
`start_recording`'s result. -/
structure RecorderState where
  sample_rate : Nat
  channels : Nat
  is_recording : Bool
  audio_queue : List Chunk
  current_device : Option Int
deriving DecidableEq

/-- `AudioRecorder.__init__(sample_rate, channels)`. -/
def initRecorder (sample_rate : Nat := SAMPLE_RATE) (channels : Nat := CHANNELS) :
    RecorderState :=
  { sample_rate := sample_rate
    channels := channels
    is_recording := false
    audio_queue := []
    current_device := none }

/-- A raw entry of the host device table returned by
`sounddevice.query_devices()`. -/
structure RawDevice where
  name : String
  max_input_channels : Nat
  max_output_channels : Nat
  default_samplerate : Nat
deriving DecidableEq

/-- One element of the list returned by
`AudioRecorder.get_audio_devices` (lines 57-62). -/
structure DeviceInfo where
  id : Nat
  name : String
  channels : Nat
  sample_rate : Nat
deriving DecidableEq

/-- `AudioRecorder.get_audio_devices` (lines 45-64).  The argument is
the outcome of `sd.query_devices()`: `some devices` when the host
query returns a device table, `none` when it raises.  The method body
has no `try`/`except`, so a raising query propagates (`none` result);
otherwise the loop keeps exactly the devices with
`max_input_channels > 0`, paired with their enumeration index. -/
def get_audio_devices (query : Option (List RawDevice)) :
    Option (List DeviceInfo) :=
  match query with
  | none => none
  | some devices =>
      some (devices.enum.filterMap (fun p =>
        if 0 < p.2.max_input_channels then
          some { id := p.1
                 name := p.2.name
                 channels := p.2.max_input_channels
                 sample_rate := p.2.default_samplerate }
        else none))

/-- `AudioRecorder.set_device` (lines 73-80): unconditional assignment
`self.current_device = device_id`, with no check of `is_recording`. -/
def set_device (s : RecorderState) (device_id : Int) : RecorderState :=
  { s with current_device := some device_id }

/-- Result of `AudioRecorder.start_recording`: the updated state, the
returned boolean, and whether a worker thread was spawned (i.e. a
stream open was initiated in the background). -/
structure StartResult where
  state : RecorderState
  ok : Bool
  spawned : Bool
deriving DecidableEq

/-- `AudioRecorder.start_recording` (lines 104-135).  If already
recording it returns `False` untouched; otherwise it optionally sets
the device, clears the queue, sets `is_recording` and spawns the
worker thread, returning `True`.  Note the stream itself is opened
only inside the worker, so `start_recording` never fails because of
the device. -/
def start_recording (s : RecorderState) (device_id : Option Int) : StartResult :=
  if s.is_recording then
    { state := s, ok := false, spawned := false }
  else
    let dev : Option Int :=
      match device_id with
      | some d => some d
      | none => s.current_device
    { state := { s with
                   current_device := dev
                   audio_queue := []
                   is_recording := true }
      ok := true
      spawned := true }

/-- An event produced by the host stream while the worker runs:
either a chunk delivered to `_audio_callback`, or a stream-level
error (including failure of the `sd.InputStream` open itself) caught
by the `except` clause of `_recording_worker`. -/
inductive StreamEvent where
  | chunk : Chunk → StreamEvent
  | error : StreamEvent
deriving DecidableEq

/-- `AudioRecorder._recording_worker` together with `_audio_callback`
(lines 82-102), driven by the list of events the host stream produces
up to the point the worker exits.  A delivered chunk is appended to
`audio_queue` (`self.audio_queue.put(indata.copy())`); on an error the
`except` branch clears `is_recording` and the worker exits, leaving
already-queued chunks in place.  An empty event list models the worker
exiting normally after `stop` clears the running flag. -/
def run_worker : RecorderState → List StreamEvent → RecorderState
  | s, [] => s
  | s, StreamEvent.chunk c :: rest =>
      run_worker { s with audio_queue := s.audio_queue ++ [c] } rest
  | s, StreamEvent.error :: _ => { s with is_recording := false }

/-- The WAV file written by `scipy.io.wavfile.write(path, rate, data)`:
its header's declared sample rate and its sample payload (the
concatenated 2-D array). -/
structure WavFile where
  sample_rate : Nat
  data : List Frame
deriving DecidableEq

/-- The channel count `scipy.io.wavfile.write` declares in the WAV
header: the second dimension of the 2-D data array, i.e. the width of
its rows. -/
def WavFile.declaredChannels (f : WavFile) : Nat :=
  match f.data with
  | [] => 0
  | fr :: _ => fr.length

/-- Outcome of a call to `AudioRecorder.stop_recording` as observed by
the caller: a normal return (`none` for Python's `return None`, `some
f` for a path to the written file `f`), or an exception escaping the
method. -/
inductive StopOutcome where
  | returned : Option WavFile → StopOutcome
  | raised : StopOutcome
deriving DecidableEq

/-- `AudioRecorder.stop_recording` (lines 137-183).  `writeOk` is
whether the `scipy.io.wavfile.write` call at line 180 succeeds; the
method wraps that call in no `try`/`except`, so a write failure
escapes as an exception (`StopOutcome.raised`).  Filename generation
only affects the path string and is not modelled. -/
def stop_recording (s : RecorderState) (writeOk : Bool) :
    RecorderState × StopOutcome :=
  if s.is_recording = false then
    (s, StopOutcome.returned none)
  else
    let chunks := s.audio_queue
    let s2 : RecorderState := { s with is_recording := false, audio_queue := [] }
    if chunks = [] then
      (s2, StopOutcome.returned none)
    else
      let audio_data : List Frame := chunks.flatten
      if writeOk then
        (s2, StopOutcome.returned (some { sample_rate := s.sample_rate
                                          data := audio_data }))
      else
        (s2, StopOutcome.raised)

/-- `AudioRecorder.get_recording_duration` (lines 185-196): `0.0` when
not recording, else `qsize * 0.1`. -/
def get_recording_duration (s : RecorderState) : ℚ :=
  if s.is_recording then (s.audio_queue.length : ℚ) * (1 / 10) else 0

/-- `AudioRecorder.is_currently_recording` (lines 198-200). -/
def is_currently_recording (s : RecorderState) : Bool :=
  s.is_recording

/-- Helper: running the worker over a sequence of delivered chunks
followed by a stream error appends exactly those chunks and clears the
running flag. -/
theorem run_worker_chunks_then_error (s : RecorderState) (cs : List Chunk) :
    run_worker s (cs.map StreamEvent.chunk ++ [StreamEvent.error]) =
      { s with audio_queue := s.audio_queue ++ cs, is_recording := false } := by
  induction cs generalizing s with
  | nil => simp [run_worker]
  | cons c rest ih =>
      simp only [List.map_cons, List.cons_append, run_worker, List.append_eq]
      rw [ih]
      simp

/-- C1: with zero chunks accumulated, `stop_recording` returns `None`
(failure), never invokes the persistence write (the outcome is
independent of `writeOk` and is never `raised` or a file), and the
session's running flag is cleared (Idle). -/
theorem stop_empty_returns_failure_idle (s : RecorderState) (writeOk : Bool)
    (h : s.is_recording = true) (hq : s.audio_queue = []) :
    (stop_recording s writeOk).2 = StopOutcome.returned none ∧
    (stop_recording s writeOk).1.is_recording = false := by
  simp [stop_recording, h, hq]

theorem stop_empty_returns_failure_idle_witness :
    (stop_recording (⟨44100, 2, true, [], none⟩ : RecorderState) false).2
      = StopOutcome.returned none ∧
    (stop_recording (⟨44100, 2, true, [], none⟩ : RecorderState) false).1.is_recording
      = false :=
  stop_empty_returns_failure_idle _ false rfl rfl

/-- C2: a `stop` on a session with a nonempty accumulated queue writes
the concatenation of exactly those chunks in arrival order, and the
buffer's frame count is the sum of the chunks' frame counts. -/
theorem stop_concatenates_chunks_in_order (s : RecorderState)
    (h : s.is_recording = true) (hq : s.audio_queue ≠ []) :
    (stop_recording s true).2 =
      StopOutcome.returned (some { sample_rate := s.sample_rate
                                   data := s.audio_queue.flatten }) ∧
    s.audio_queue.flatten.length = (s.audio_queue.map List.length).sum := by
  exact ⟨by simp [stop_recording, h, hq], List.length_flatten _⟩

theorem stop_concatenates_chunks_in_order_witness :
    (stop_recording (⟨44100, 2, true, [[[0, 0]], [[1, 1], [2, 2]]], none⟩ : RecorderState)
        true).2
      = StopOutcome.returned (some ⟨44100, [[0, 0], [1, 1], [2, 2]]⟩) ∧
    (3 : Nat) = (([[[0, 0]], [[1, 1], [2, 2]]] : List Chunk).map List.length).sum :=
  stop_concatenates_chunks_in_order
    (⟨44100, 2, true, [[[0, 0]], [[1, 1], [2, 2]]], none⟩ : RecorderState)
    rfl (by decide)

/-- C3 counterexample: starting a session, delivering two chunks and
then a stream error leaves `is_recording = false` with the two chunks
still queued; the subsequent `stop_recording` then takes the
`not self.is_recording` early return: it returns `None`, drains
nothing (the queue is untouched) and writes no file — contrary to the
claim that it drains the chunks and returns a valid written file. -/
theorem stream_error_then_stop_no_file :
    run_worker (start_recording (initRecorder 44100 2) none).state
        [StreamEvent.chunk [[0, 0]], StreamEvent.chunk [[1, 1]], StreamEvent.error]
      = { sample_rate := 44100, channels := 2, is_recording := false,
          audio_queue := [[[0, 0]], [[1, 1]]], current_device := none } ∧
    stop_recording
        { sample_rate := 44100, channels := 2, is_recording := false,
          audio_queue := [[[0, 0]], [[1, 1]]], current_device := none } true
      = ({ sample_rate := 44100, channels := 2, is_recording := false,
           audio_queue := [[[0, 0]], [[1, 1]]], current_device := none },
         StopOutcome.returned none) := by
  decide

/-- C3 amended: after a mid-session stream error the worker clears the
running flag (the code has no distinct Failed state) and leaves the
delivered chunks queued; a subsequent `stop_recording` reports the
not-recording failure (`None`) without draining the chunks and without
writing any file. -/
theorem stream_error_then_stop_amended (s : RecorderState) (cs : List Chunk)
    (writeOk : Bool) (h : s.is_recording = true) :
    (run_worker s (cs.map StreamEvent.chunk ++ [StreamEvent.error])).is_recording = false ∧
    (run_worker s (cs.map StreamEvent.chunk ++ [StreamEvent.error])).audio_queue
      = s.audio_queue ++ cs ∧
    stop_recording (run_worker s (cs.map StreamEvent.chunk ++ [StreamEvent.error])) writeOk
      = (run_worker s (cs.map StreamEvent.chunk ++ [StreamEvent.error]),
         StopOutcome.returned none) := by
  rw [run_worker_chunks_then_error]
  simp [stop_recording]

theorem stream_error_then_stop_amended_witness :
    (run_worker (⟨44100, 2, true, [], none⟩ : RecorderState)
        (([[[0, 0]], [[1, 1]]] : List Chunk).map StreamEvent.chunk
          ++ [StreamEvent.error])).is_recording = false ∧
    (run_worker (⟨44100, 2, true, [], none⟩ : RecorderState)
        (([[[0, 0]], [[1, 1]]] : List Chunk).map StreamEvent.chunk
          ++ [StreamEvent.error])).audio_queue
      = [] ++ [[[0, 0]], [[1, 1]]] ∧
    stop_recording
        (run_worker (⟨44100, 2, true, [], none⟩ : RecorderState)
          (([[[0, 0]], [[1, 1]]] : List Chunk).map StreamEvent.chunk
            ++ [StreamEvent.error])) true
      = (run_worker (⟨44100, 2, true, [], none⟩ : RecorderState)
          (([[[0, 0]], [[1, 1]]] : List Chunk).map StreamEvent.chunk
            ++ [StreamEvent.error]),
         StopOutcome.returned none) :=
  stream_error_then_stop_amended (⟨44100, 2, true, [], none⟩ : RecorderState)
    [[[0, 0]], [[1, 1]]] true rfl

/-- C4 counterexample: when the host query raises
(`sd.query_devices()` fails, modelled by the `none` argument),
`get_audio_devices` propagates the exception (`none` result) instead
of returning a device list — the method body contains no
`try`/`except`, contrary to the claim that no exception passes the
catalog boundary. -/
theorem device_query_failure_propagates :
    get_audio_devices none = none := rfl

/-- C4 amended: when the host device query succeeds, the listing
returns a (possibly empty) list of exactly the input-capable devices
(those with `max_input_channels > 0`): an entry is in the result iff
it is built from an enumerated host device with positive input
channels, carrying that device's enumeration index as id, its name,
its input channel count and its native sample rate; when the host
query raises, the exception propagates past `get_audio_devices` to
the caller. -/
theorem device_listing_filters_inputs (ds : List RawDevice) :
    get_audio_devices none = none ∧
    ∃ l, get_audio_devices (some ds) = some l ∧
      ∀ d : DeviceInfo, d ∈ l ↔
        ∃ p, p ∈ ds.enum ∧ 0 < p.2.max_input_channels ∧
          d = { id := p.1
                name := p.2.name
                channels := p.2.max_input_channels
                sample_rate := p.2.default_samplerate } := by
  refine ⟨rfl, _, rfl, ?_⟩
  intro d
  rw [List.mem_filterMap]
  constructor
  · rintro ⟨p, hp, hf⟩
    by_cases hcase : 0 < p.2.max_input_channels
    · simp only [if_pos hcase, Option.some.injEq] at hf
      exact ⟨p, hp, hcase, hf.symm⟩
    · simp [if_neg hcase] at hf
  · rintro ⟨p, hp, hcase, rfl⟩
    exact ⟨p, hp, by simp [if_pos hcase]⟩

/-- C5 counterexample: on a session with one accumulated chunk, a
failing persistence write (`writeOk = false`) makes `stop_recording`
raise — the write at line 180 is wrapped in no `try`/`except`, so this
failure is not recovered inside the session, contrary to the claim
that no failure propagates past the session object. -/
theorem write_failure_raises :
    (stop_recording (⟨44100, 2, true, [[[0, 0]]], none⟩ : RecorderState) false).2
      = StopOutcome.raised := by
  decide

/-- C5 amended: lifecycle failures are reported as result outcomes,
but a write-time persistence failure is the exception: with a
nonempty buffer, `stop_recording` raises exactly when the write
fails, and in that case the buffer has already been drained and is
discarded (not retried). -/
theorem stop_raises_iff_write_fails (s : RecorderState)
    (h : s.is_recording = true) (hq : s.audio_queue ≠ []) :
    (stop_recording s false).2 = StopOutcome.raised ∧
    (stop_recording s true).2 ≠ StopOutcome.raised ∧
    (stop_recording s false).1.audio_queue = [] := by
  simp [stop_recording, h, hq]

theorem stop_raises_iff_write_fails_witness :
    (stop_recording (⟨44100, 2, true, [[[0, 0]]], none⟩ : RecorderState) false).2
      = StopOutcome.raised ∧
    (stop_recording (⟨44100, 2, true, [[[0, 0]]], none⟩ : RecorderState) true).2
      ≠ StopOutcome.raised ∧
    (stop_recording (⟨44100, 2, true, [[[0, 0]]], none⟩ : RecorderState)
        false).1.audio_queue = [] :=
  stop_raises_iff_write_fails (⟨44100, 2, true, [[[0, 0]]], none⟩ : RecorderState)
    rfl (by decide)

/-- C6: on a successful `stop`, the written WAV carries exactly the
session configuration: its declared sample rate is the config's
sample rate, its declared channel count (the width of the 2-D data
array) is the config's channel count, and the payload is the
unmodified concatenation of the captured chunks (no resampling, no
re-encoding).  The hypotheses state that the host stream delivered
nonempty chunks whose frames have the configured channel width, which
is what `sd.InputStream(channels=self.channels)` guarantees. -/
theorem stop_header_matches_config (s : RecorderState)
    (h : s.is_recording = true) (hne : s.audio_queue ≠ [])
    (hchan : ∀ c ∈ s.audio_queue, ∀ fr ∈ c, fr.length = s.channels)
    (hfr : ∀ c ∈ s.audio_queue, c ≠ []) :
    (stop_recording s true).2
      = StopOutcome.returned (some { sample_rate := s.sample_rate
                                     data := s.audio_queue.flatten }) ∧
    WavFile.declaredChannels ⟨s.sample_rate, s.audio_queue.flatten⟩ = s.channels := by
  refine ⟨by simp [stop_recording, h, hne], ?_⟩
  cases hq : s.audio_queue with
  | nil => exact absurd hq hne
  | cons c rest =>
      have hcmem : c ∈ s.audio_queue := by rw [hq]; exact List.mem_cons_self c rest
      cases hc : c with
      | nil => exact absurd hc (hfr c hcmem)
      | cons fr rest2 =>
          have hlen : fr.length = s.channels := by
            refine hchan c hcmem fr ?_
            rw [hc]
            exact List.mem_cons_self fr rest2
          simp [WavFile.declaredChannels, hq, hc, hlen]

theorem stop_header_matches_config_witness :
    (stop_recording (⟨44100, 2, true, [[[0, 0]], [[1, 1]]], none⟩ : RecorderState)
        true).2
      = StopOutcome.returned (some ⟨44100, [[0, 0], [1, 1]]⟩) ∧
    WavFile.declaredChannels ⟨44100, ([[[0, 0]], [[1, 1]]] : List Chunk).flatten⟩ = 2 :=
  stop_header_matches_config
    (⟨44100, 2, true, [[[0, 0]], [[1, 1]]], none⟩ : RecorderState)
    rfl (by decide) (by decide) (by decide)

/-- C7: `start_recording` while already recording returns `False` and
leaves the whole state untouched (queue not cleared, device
unchanged) and spawns no new worker thread (no second stream open). -/
theorem start_while_recording_rejected (s : RecorderState) (device_id : Option Int)
    (h : s.is_recording = true) :
    start_recording s device_id = { state := s, ok := false, spawned := false } := by
  simp [start_recording, h]

theorem start_while_recording_rejected_witness :
    start_recording (⟨44100, 2, true, [[[0, 0]]], some 3⟩ : RecorderState) (some 7)
      = { state := (⟨44100, 2, true, [[[0, 0]]], some 3⟩ : RecorderState),
          ok := false, spawned := false } :=
  start_while_recording_rejected
    (⟨44100, 2, true, [[[0, 0]]], some 3⟩ : RecorderState) (some 7) rfl

/-- C8: while recording, the duration estimate is the queue's chunk
count times the nominal per-chunk duration 0.1 s; in particular it
depends only on the number of queued chunks, not on their contents or
any wall clock (any two recording states with equally long queues get
the same estimate). -/
theorem duration_is_chunk_count_times_tenth (s : RecorderState)
    (h : s.is_recording = true) :
    get_recording_duration s = (s.audio_queue.length : ℚ) * (1 / 10) ∧
    ∀ t : RecorderState, t.is_recording = true →
      t.audio_queue.length = s.audio_queue.length →
      get_recording_duration t = get_recording_duration s := by
  refine ⟨by simp [get_recording_duration, h], ?_⟩
  intro t ht hlen
  simp [get_recording_duration, h, ht, hlen]

theorem duration_is_chunk_count_times_tenth_witness :
    get_recording_duration
        (⟨44100, 2, true, [[[0, 0]], [[1, 1]], [[2, 2]]], none⟩ : RecorderState)
      = 3 / 10 := by
  have hthm := duration_is_chunk_count_times_tenth
    (⟨44100, 2, true, [[[0, 0]], [[1, 1]], [[2, 2]]], none⟩ : RecorderState) rfl
  rw [hthm.1]
  norm_num

/-- C9 counterexample: `set_device` called on a Recording session
(`is_recording = true`, device 1) is not rejected: it succeeds and
changes the selected device to 5, contrary to the claim that a call
while Recording is rejected and leaves the device unchanged. -/
theorem set_device_while_recording_accepted :
    set_device (⟨44100, 2, true, [], some 1⟩ : RecorderState) 5
      = (⟨44100, 2, true, [], some 5⟩ : RecorderState) := by
  decide

/-- C9 amended: `set_device` performs no state check at all: in every
state — Idle or Recording alike — it sets the selected device to the
given id and changes nothing else. -/
theorem set_device_unconditional (s : RecorderState) (device_id : Int) :
    (set_device s device_id).current_device = some device_id ∧
    (set_device s device_id).is_recording = s.is_recording ∧
    (set_device s device_id).audio_queue = s.audio_queue ∧
    (set_device s device_id).sample_rate = s.sample_rate ∧
    (set_device s device_id).channels = s.channels :=
  ⟨rfl, rfl, rfl, rfl, rfl⟩

/-- C10: from Idle, `start_recording` returns `True` for every device
id — it never touches the stream itself, it only spawns the worker —
so an invalid or unavailable device cannot make it fail; the stream
open happens in the worker, and an open failure surfaces only
asynchronously, as the worker's `except` branch clearing the running
flag. -/
theorem start_defers_stream_open (s : RecorderState) (device_id : Option Int)
    (h : s.is_recording = false) :
    (start_recording s device_id).ok = true ∧
    (start_recording s device_id).spawned = true ∧
    (start_recording s device_id).state.is_recording = true ∧
    (run_worker (start_recording s device_id).state [StreamEvent.error]).is_recording
      = false := by
  simp [start_recording, h, run_worker]

theorem start_defers_stream_open_witness :
    (start_recording (⟨44100, 2, false, [], none⟩ : RecorderState) (some (-1))).ok
      = true ∧
    (start_recording (⟨44100, 2, false, [], none⟩ : RecorderState) (some (-1))).spawned
      = true ∧
    (start_recording (⟨44100, 2, false, [], none⟩ : RecorderState)
        (some (-1))).state.is_recording = true ∧
    (run_worker (start_recording (⟨44100, 2, false, [], none⟩ : RecorderState)
        (some (-1))).state [StreamEvent.error]).is_recording = false :=
  start_defers_stream_open (⟨44100, 2, false, [], none⟩ : RecorderState)
    (some (-1)) rfl
